import Mathlib

/-!
Verification of the multi-item waste-classification orchestration pipeline
(`backend/app/services/classifier.py`, `image_detector.py`, `text_splitter.py`,
`rag_service.py`, `config.py`).

The Python services are shallowly embedded: JSON-like Python values become the
inductive `Jv`, Python exceptions become the error side of `Except PyErr`,
and the outcomes of external calls (HTTP model calls, the embedding model,
the vector store) become explicit environment records quantified over in the
theorems.  Machine floats are idealised as exact rationals; to keep every
definition evaluable by the kernel, rational values are always built with
`mkRat` and their arithmetic is carried out on numerators and denominators,
never through the (irreducible) field operations of `ℚ`.  String processing
is carried out on character lists for the same reason.
-/

/-- Python exception classes that the modelled code can raise or catch. -/
inductive PyErr where
  | typeError
  | valueError
  | attributeError
  | runtimeError
  | validationError
  | genericError
  deriving DecidableEq, Repr

/-- A JSON-like Python value: the payloads that flow out of `json.loads` and
through the detection / classification dictionaries. -/
inductive Jv where
  | jnull
  | jbool (b : Bool)
  | jnum (q : ℚ)
  | jstr (s : String)
  | jarr (xs : List Jv)
  | jobj (fields : List (String × Jv))

/-- Python truthiness (`bool(v)`): `None`, `False`, `0`, `""`, `[]` and the
empty dict are falsy, everything else is truthy. -/
def pyTruthy : Jv → Bool
  | .jnull => false
  | .jbool b => b
  | .jnum q => decide (q.num ≠ 0)
  | .jstr s => !s.data.isEmpty
  | .jarr xs => !xs.isEmpty
  | .jobj fs => !fs.isEmpty

/-- Python `len(v)`: defined for strings, lists and dicts; raises `TypeError`
on `None`, booleans and numbers. -/
def pyLen : Jv → Except PyErr ℤ
  | .jstr s => .ok s.data.length
  | .jarr xs => .ok xs.length
  | .jobj fs => .ok fs.length
  | .jnull => .error .typeError
  | .jbool _ => .error .typeError
  | .jnum _ => .error .typeError

/-- Python iteration `for x in v`: a list yields its elements, a string its
one-character substrings, a dict its keys.  The non-iterable cases yield `[]`;
the modelled code only reaches them after a `len` call has already raised. -/
def pyIter : Jv → List Jv
  | .jarr xs => xs
  | .jstr s => s.data.map (fun c => Jv.jstr (String.mk [c]))
  | .jobj fs => fs.map (fun p => Jv.jstr p.1)
  | .jnull => []
  | .jbool _ => []
  | .jnum _ => []

/-- Lower-cased character code, covering the ASCII range that the embedded
regular expressions match on (Python lower-cases the full Unicode range, but
every keyword compared against here is ASCII). -/
def charLowerNat (c : Char) : ℕ :=
  if 65 ≤ c.toNat ∧ c.toNat ≤ 90 then c.toNat + 32 else c.toNat

/-- Whitespace test used by the embedded `\s` character class and by
`str.strip` (space, tab, newline, carriage return). -/
def wsChar (c : Char) : Bool :=
  c = ' ' ∨ c = '\t' ∨ c = '\n' ∨ c = '\r'

/-- `str.strip()` on a character list. -/
def trimChars (cs : List Char) : List Char :=
  ((cs.dropWhile wsChar).reverse.dropWhile wsChar).reverse

/-- `str.strip()` producing a string again. -/
def strStrip (s : String) : String :=
  String.mk (trimChars s.data)

/-- Case-insensitive test that `cs` starts with the (already lower-case)
keyword `kw`, as in matching the regex `kw...` with `re.IGNORECASE`. -/
def lowStarts (cs : List Char) (kw : List Char) : Bool :=
  match kw, cs with
  | [], _ => true
  | _ :: _, [] => false
  | k :: kw2, c :: cs2 => charLowerNat c = k.toNat && lowStarts cs2 kw2

/-- Case-insensitive equality of `cs` with the (already lower-case) word
`kw`. -/
def lowEq (cs : List Char) (kw : List Char) : Bool :=
  cs.map charLowerNat == kw.map Char.toNat

/-- Value of a list of decimal digit characters. -/
def digitsVal (ds : List Char) : ℕ :=
  ds.foldl (fun a c => 10 * a + (c.toNat - 48)) 0

/-- Parse the plain decimal grammar of a Python float literal: optional sign,
digits with an optional fractional part (`"1"`, `"-2.5"`, `".5"`, `"1."`),
surrounding whitespace ignored.  Exponent, `inf` and `nan` forms are outside
the modelled grammar and yield `none`; no code path in the claims feeds such
literals in. -/
def parseRat (s : String) : Option ℚ :=
  let core : List Char → Option (ℕ × ℕ) := fun cs =>
    let ip := cs.takeWhile Char.isDigit
    let rest := cs.dropWhile Char.isDigit
    match rest with
    | [] => if ip.isEmpty then none else some (digitsVal ip, 1)
    | '.' :: r2 =>
      let fp := r2.takeWhile Char.isDigit
      let rest2 := r2.dropWhile Char.isDigit
      if !rest2.isEmpty then none
      else if ip.isEmpty && fp.isEmpty then none
      else some (digitsVal ip * 10 ^ fp.length + digitsVal fp, 10 ^ fp.length)
    | _ => none
  match trimChars s.data with
  | '+' :: r => (core r).map (fun p => mkRat p.1 p.2)
  | '-' :: r => (core r).map (fun p => mkRat (-(p.1 : ℤ)) p.2)
  | r => (core r).map (fun p => mkRat p.1 p.2)

/-- Python `float(v)`: numbers pass through, booleans coerce to 0 or 1,
strings parse as float literals (else `ValueError`); `None`, lists and dicts
raise `TypeError`. -/
def pyFloat : Jv → Except PyErr ℚ
  | .jnum q => .ok q
  | .jbool b => .ok (if b then 1 else 0)
  | .jstr s =>
    match parseRat s with
    | some q => .ok q
    | none => .error .valueError
  | .jnull => .error .typeError
  | .jarr _ => .error .typeError
  | .jobj _ => .error .typeError

/-- Truncating integer division toward zero (for a positive divisor), the
behaviour of Python `int()` applied to an exact quotient. -/
def tdivInt (a b : ℤ) : ℤ :=
  if a < 0 then -((a.natAbs / b.toNat : ℕ) : ℤ) else ((a.natAbs / b.toNat : ℕ) : ℤ)

/-- Exact subtraction of rationals carried out on numerators and denominators
(definitionally evaluable, unlike `ℚ` subtraction). -/
def qSub (a b : ℚ) : ℚ :=
  mkRat (a.num * (b.den : ℤ) - b.num * (a.den : ℤ)) (a.den * b.den)

/-- Python `min` over a nonempty list, scanning left and keeping the first
minimum. -/
def pyMinList (x : ℚ) (xs : List ℚ) : ℚ :=
  xs.foldl (fun m y => if y < m then y else m) x

/-- Python `max` over a nonempty list, scanning left and keeping the first
maximum. -/
def pyMaxList (x : ℚ) (xs : List ℚ) : ℚ :=
  xs.foldl (fun m y => if m < y then y else m) x

/-! ### Detection normalization (`image_detector.py`, `_normalize_detections`) -/

/-- One raw detection dictionary as handed to `_normalize_detections`: each
field is absent (`none`, the key is missing) or present with an arbitrary
JSON value. -/
structure RawDetection where
  description : Option Jv := none
  bbox : Option Jv := none
  mask : Option Jv := none
  confidence : Option Jv := none

/-- One normalized detection dictionary: all four keys present, values still
arbitrary JSON values (the source validates shape, not element types). -/
structure NormDetection where
  description : Jv
  bbox : Jv
  mask : Jv
  confidence : Jv

/-- The coordinate-collection loop of the bbox-from-mask synthesis
(image_detector.py lines 221-228): entries that are lists of length at least
two contribute `float` conversions of their first two elements; a failing
conversion aborts with the exception. -/
def collectXY : List Jv → Except PyErr (List (ℚ × ℚ))
  | [] => .ok []
  | c :: rest =>
    match c with
    | .jarr (c0 :: c1 :: _) => do
      let x ← pyFloat c0
      let y ← pyFloat c1
      let ps ← collectXY rest
      return (x, y) :: ps
    | _ => collectXY rest

/-- The bbox-from-mask synthesis (image_detector.py lines 216-239), entered
when the mask is truthy and the bbox falsy.  `len(mask_coords)` sits before
the local `try`, so a truthy non-sized mask raises `TypeError` out of the
whole normalization; conversion failures inside the `try` are caught and
leave the bbox unchanged. -/
def synthFromMask (bbox0 mask0 : Jv) : Except PyErr Jv :=
  match pyLen mask0 with
  | .error e => .error e
  | .ok n =>
    if n ≤ 0 then .ok bbox0
    else
      match collectXY (pyIter mask0) with
      | .error _ => .ok bbox0
      | .ok ps =>
        match ps with
        | [] => .ok bbox0
        | p :: rest =>
          let xs := rest.map Prod.fst
          let ys := rest.map Prod.snd
          let xmin := pyMinList p.1 xs
          let ymin := pyMinList p.2 ys
          let xmax := pyMaxList p.1 xs
          let ymax := pyMaxList p.2 ys
          .ok (.jarr [.jnum xmin, .jnum ymin, .jnum (qSub xmax xmin), .jnum (qSub ymax ymin)])

/-- Normalization of a single detection (image_detector.py lines 209-253):
defaults for missing keys, bbox synthesis from the mask, then the two shape
validations. -/
def normalizeOne (d : RawDetection) : Except PyErr NormDetection := do
  let desc := d.description.getD (.jstr "item in image")
  let bbox0 := d.bbox.getD .jnull
  let mask0 := d.mask.getD .jnull
  let conf := d.confidence.getD (.jnum (mkRat 1 2))
  let bbox1 ←
    if pyTruthy mask0 && !pyTruthy bbox0 then synthFromMask bbox0 mask0
    else .ok bbox0
  let bbox2 :=
    if pyTruthy bbox1 then
      match bbox1 with
      | .jarr l => if l.length = 4 then bbox1 else Jv.jnull
      | _ => Jv.jnull
    else bbox1
  let mask2 :=
    if pyTruthy mask0 then
      match mask0 with
      | .jarr _ => mask0
      | _ => Jv.jnull
    else mask0
  return { description := desc, bbox := bbox2, mask := mask2, confidence := conf }

/-- `_normalize_detections` over the whole list: the Python loop appends one
normalized entry per raw entry and lets an exception propagate, discarding
the partial list. -/
def normalizeDetections : List RawDetection → Except PyErr (List NormDetection)
  | [] => .ok []
  | d :: ds => do
    let nd ← normalizeOne d
    let nds ← normalizeDetections ds
    return nd :: nds

/-! ### Region extraction (`image_detector.py`, `crop_image`) -/

/-- Pixel geometry of the decoded source image.  `crop_image` re-reads the
size from the decoded image itself (line 327); the `image_size` argument the
orchestrator passes in is never used. -/
structure ImageInfo where
  width : ℤ
  height : ℤ
  isRGBA : Bool
  deriving DecidableEq, Repr

/-- Environment of one `crop_image` call: the outcome of base64-decoding and
`Image.open` (`none` means that step raised). -/
structure CropEnv where
  decoded : Option ImageInfo

/-- Observable result of a successful crop: the PIL crop box
`(left, upper, right, lower)` plus whether the polygon mask was composited
and whether the output was encoded as PNG (RGBA) rather than JPEG. -/
structure CropOut where
  left : ℤ
  upper : ℤ
  right : ℤ
  lower : ℤ
  maskApplied : Bool
  png : Bool
  deriving DecidableEq, Repr

/-- `int(v * dim / 100)` for one bbox or mask coordinate.  Numbers and
booleans go through Python numeric arithmetic with truncation; any other
value (including numeric strings, for which `*` means repetition) raises
`TypeError` at the division. -/
def toPixel (v : Jv) (dim : ℤ) : Except PyErr ℤ :=
  match v with
  | .jnum q => .ok (tdivInt (q.num * dim) ((q.den : ℤ) * 100))
  | .jbool b => .ok (tdivInt ((if b then 1 else 0) * dim) 100)
  | _ => .error .typeError

/-- The four percent-to-pixel conversions of crop_image lines 328-331. -/
def bboxPixels (info : ImageInfo) (b0 b1 b2 b3 : Jv) : Except PyErr (ℤ × ℤ × ℤ × ℤ) := do
  let x0 ← toPixel b0 info.width
  let y0 ← toPixel b1 info.height
  let w0 ← toPixel b2 info.width
  let h0 ← toPixel b3 info.height
  return (x0, y0, w0, h0)

/-- The clamping of crop_image lines 334-337. -/
def clampRect (info : ImageInfo) (p : ℤ × ℤ × ℤ × ℤ) : ℤ × ℤ × ℤ × ℤ :=
  let x := max 0 (min p.1 info.width)
  let y := max 0 (min p.2.1 info.height)
  let w := max 1 (min p.2.2.1 (info.width - x))
  let h := max 1 (min p.2.2.2 (info.height - y))
  (x, y, w, h)

/-- The mask-to-pixel comprehension of crop_image lines 343-347. -/
def cropMaskPixels (info : ImageInfo) : List Jv → Except PyErr (List (ℤ × ℤ))
  | [] => .ok []
  | c :: rest =>
    match c with
    | .jarr (c0 :: c1 :: _) => do
      let x ← toPixel c0 info.width
      let y ← toPixel c1 info.height
      let ps ← cropMaskPixels info rest
      return (x, y) :: ps
    | _ => cropMaskPixels info rest

/-- The mask-application step of crop_image lines 340-368: returns whether an
alpha mask was composited.  A truthy non-sized mask raises at the `len` call
on line 340, which only the outer handler catches; failures inside the local
`try` are caught on line 366 and fall through to the plain rectangular
crop. -/
def maskStep (info : ImageInfo) (mask : Jv) : Except PyErr Bool :=
  if !pyTruthy mask then .ok false
  else
    match pyLen mask with
    | .error e => .error e
    | .ok n =>
      if n ≤ 0 then .ok false
      else
        match cropMaskPixels info (pyIter mask) with
        | .error _ => .ok false
        | .ok ps => .ok (decide (3 ≤ ps.length))

/-- Everything inside the try/except of crop_image lines 316-383. -/
def cropBody (env : CropEnv) (bbox mask : Jv) : Except PyErr CropOut :=
  match env.decoded with
  | none => .error .genericError
  | some info =>
    match bbox with
    | .jarr [b0, b1, b2, b3] => do
      let raw ← bboxPixels info b0 b1 b2 b3
      let r := clampRect info raw
      let applied ← maskStep info mask
      return { left := r.1, upper := r.2.1, right := r.1 + r.2.2.1, lower := r.2.1 + r.2.2.2,
               maskApplied := applied, png := applied || info.isRGBA }
    | _ => .error .typeError

/-- `crop_image`: the early return for a falsy or non-length-4 bbox (line
313, whose `len` call can itself raise on a truthy non-sized bbox, before
the try/except), then the guarded body whose failures all produce `None`. -/
def cropImage (env : CropEnv) (bbox mask : Jv) : Except PyErr (Option CropOut) :=
  if !pyTruthy bbox then .ok none
  else
    match pyLen bbox with
    | .error e => .error e
    | .ok n =>
      if n ≠ 4 then .ok none
      else
        match cropBody env bbox mask with
        | .error _ => .ok none
        | .ok out => .ok (some out)

/-- `get_image_size`: the decoded size, or the (800, 600) default if decoding
raised. -/
def getImageSize (decoded : Option (ℤ × ℤ)) : ℤ × ℤ := decoded.getD (800, 600)


/-! ### Text splitting (`text_splitter.py`) -/

/-- Drop leading whitespace (`\s*` / `\s+` after a successful match). -/
def dropWs (cs : List Char) : List Char := cs.dropWhile wsChar

/-- The substitution `re.sub(r'^(a|an|the)\s+', '', item, re.IGNORECASE)`,
with the alternation tried in order and each branch requiring at least one
following whitespace character. -/
def stripArticle (cs : List Char) : List Char :=
  match cs with
  | c :: rest =>
    if charLowerNat c = 97 then
      match rest with
      | r1 :: rest2 =>
        if wsChar r1 then dropWs rest2
        else if charLowerNat r1 = 110 then
          match rest2 with
          | r2 :: rest3 => if wsChar r2 then dropWs rest3 else cs
          | [] => cs
        else cs
      | [] => cs
    else if lowStarts cs ['t', 'h', 'e'] then
      match cs.drop 3 with
      | r :: rest3 => if wsChar r then dropWs rest3 else cs
      | [] => cs
    else cs
  | [] => cs

/-- The substitution `re.sub(r'^\d+\s*(st|nd|rd|th)?\s*', '', item,
re.IGNORECASE)`. -/
def stripLeadNum (cs : List Char) : List Char :=
  let ds := cs.takeWhile Char.isDigit
  if ds.isEmpty then cs
  else
    let r1 := dropWs (cs.dropWhile Char.isDigit)
    match r1 with
    | a :: b :: rest =>
      if (charLowerNat a = 115 ∧ charLowerNat b = 116)
        ∨ (charLowerNat a = 110 ∧ charLowerNat b = 100)
        ∨ (charLowerNat a = 114 ∧ charLowerNat b = 100)
        ∨ (charLowerNat a = 116 ∧ charLowerNat b = 104)
      then dropWs rest else r1
    | _ => r1

/-- `_clean_item`: strip, drop a leading article, drop a leading number with
optional ordinal suffix, strip again. -/
def cleanItem (s : String) : String :=
  if s.data.isEmpty then ""
  else String.mk (trimChars (stripLeadNum (stripArticle (trimChars s.data))))

/-- The substitution `re.sub(r'^(i have|there are|items?:\s*)', '', text,
re.IGNORECASE)` at the head of `_split_simple`. -/
def stripIntro (cs : List Char) : List Char :=
  if lowStarts cs ['i', ' ', 'h', 'a', 'v', 'e'] then cs.drop 6
  else if lowStarts cs ['t', 'h', 'e', 'r', 'e', ' ', 'a', 'r', 'e'] then cs.drop 9
  else if lowStarts cs ['i', 't', 'e', 'm', 's', ':'] then dropWs (cs.drop 6)
  else if lowStarts cs ['i', 't', 'e', 'm', ':'] then dropWs (cs.drop 5)
  else cs

/-- `re.split(r'[,;]|\sand\s', text, re.IGNORECASE)`: scan left to right,
splitting at a comma, a semicolon, or a whitespace-delimited `and` (whose
five delimiter characters are consumed). -/
def splitDelimsF : ℕ → List Char → List Char → List (List Char)
  | 0, _, acc => [acc.reverse]
  | _ + 1, [], acc => [acc.reverse]
  | fuel + 1, c :: rest, acc =>
    if c = ',' || c = ';' then acc.reverse :: splitDelimsF fuel rest []
    else if wsChar c then
      match rest with
      | a :: n :: d :: w :: rest2 =>
        if charLowerNat a = 97 && charLowerNat n = 110 && charLowerNat d = 100 && wsChar w then
          acc.reverse :: splitDelimsF fuel rest2 []
        else splitDelimsF fuel rest (c :: acc)
      | _ => splitDelimsF fuel rest (c :: acc)
    else splitDelimsF fuel rest (c :: acc)

/-- `re.split` driver: the fuel equals the input length, which bounds the
number of scanning steps. -/
def splitDelims (cs : List Char) (acc : List Char) : List (List Char) :=
  splitDelimsF cs.length cs acc

/-- `_split_simple`: strip the intro phrase, split on the delimiters, clean
each piece keeping the non-empty ones; with at most one surviving piece,
return the stripped remainder as a singleton, or the empty list if that
remainder is empty. -/
def splitSimple (t : String) : List String :=
  let t1 := stripIntro t.data
  let pieces := (splitDelims t1 []).map String.mk
  let cleaned := (pieces.map cleanItem).filter (fun x => !x.data.isEmpty)
  if cleaned.length ≤ 1 then
    if (trimChars t1).isEmpty then [] else [String.mk (trimChars t1)]
  else cleaned

/-- Outcomes of the two generative calls inside `split_items`:
`_split_with_llm` (which already folds in its own parsing and cleaning) and
`_expand_single_item`.  An `error` value stands for an exception raised out
of the awaited call. -/
structure SplitEnv where
  llm : Except PyErr (List String)
  expandOne : Except PyErr (List String)

/-- `split_items` (text_splitter.py lines 24-58): empty or whitespace input
returns `[]`; otherwise the generative split is used when it yields more
than one item, a single generative item triggers the expansion attempt, and
every failure path falls back to `_split_simple`. -/
def splitItems (env : SplitEnv) (text : String) : List String :=
  if (trimChars text.data).isEmpty then []
  else
    match env.llm with
    | .error _ => splitSimple text
    | .ok items =>
      if items.length > 1 then items
      else if items.length = 1 then
        match env.expandOne with
        | .error _ => splitSimple text
        | .ok ex => if ex.length > 1 then ex else items
      else splitSimple text


/-! ### Configuration and the enrichment gate (`config.py`, `classifier.py`) -/

/-- The `Settings` class of `app/config.py`, with exactly the attributes the
source declares.  No `AUTO_ENRICH_*` attribute exists. -/
structure Settings where
  OPENROUTER_API_KEY : String
  VISION_MODEL : String
  TEXT_MODEL : String
  ITEM_DETECTION_MODEL : String
  EMBEDDING_MODEL : String
  CHROMA_DB_PATH : String
  PORT : ℤ
  RAG_TOP_K : ℕ

/-- The module-level `settings` instance with the defaults of `config.py`
(environment variables unset). -/
def defaultSettings : Settings :=
  { OPENROUTER_API_KEY := ""
    VISION_MODEL := "qwen/qwen3-vl-32b-instruct"
    TEXT_MODEL := "qwen/qwen-2.5-7b-instruct"
    ITEM_DETECTION_MODEL := "qwen/qwen-2.5-72b-instruct"
    EMBEDDING_MODEL := "all-MiniLM-L6-v2"
    CHROMA_DB_PATH := "./chroma_db"
    PORT := 8000
    RAG_TOP_K := 5 }

/-- Python attribute lookup for `settings.AUTO_ENRICH_ENABLED`
(classifier.py line 230).  `Settings` declares no such attribute and defines
no `__getattr__`, so the lookup raises `AttributeError` for every settings
object. -/
def settingsAutoEnrichEnabled (_ : Settings) : Except PyErr Bool :=
  .error .attributeError

/-- Attribute lookup for `settings.AUTO_ENRICH_CONFIDENCE_THRESHOLD`
(classifier.py line 235): also undeclared, also `AttributeError`. -/
def settingsAutoEnrichThreshold (_ : Settings) : Except PyErr ℚ :=
  .error .attributeError

/-- Attribute lookup for `settings.AUTO_ENRICH_CHECK_DUPLICATES`
(classifier.py line 248): also undeclared, also `AttributeError`. -/
def settingsAutoEnrichCheckDuplicates (_ : Settings) : Except PyErr Bool :=
  .error .attributeError

/-- One classification result (`ClassificationResult` in
`models/classification.py`).  The source wraps bbox and mask as
`{"coordinates": v}` dictionaries; the model records the payload `v`. -/
structure ClassificationResult where
  item : String
  category : String
  bin : String
  binColor : String
  explanation : String
  confidence : Option ℚ
  bbox : Option Jv
  mask : Option Jv

/-- Environment of one enrichment attempt: the outcome of
`rag_service.check_duplicate` (which catches its own exceptions and returns
a boolean), of `generate_text_embedding`, and of `rag_service.add_example`.
The oracles do not depend on the interpolated description text, which the
store model never observes. -/
structure EnrichEnv where
  dup : Bool
  embed : Except PyErr (List ℚ)
  addExample : Except PyErr String

/-- The reserved-placeholder test of classifier.py line 239. -/
def itemIsGeneric (item : String) : Bool :=
  lowEq item.data "unknown item".data
    || lowEq item.data "item in image".data
    || lowEq item.data "general waste".data

/-- `_auto_enrich_if_qualified` (classifier.py lines 217-276).  The gate
checks, in order: the enabled flag, the confidence threshold, the generic
item and generic category guards, then inside a catch-all `try` the
duplicate check, the embedding and the store add.  The three
`settings.AUTO_ENRICH_*` reads are attribute lookups; the first two sit
before the `try`, so their exceptions propagate. -/
def autoEnrichIfQualified (s : Settings) (env : EnrichEnv) (r : ClassificationResult)
    (desc : String) : Except PyErr Unit := do
  let enabled ← settingsAutoEnrichEnabled s
  if !enabled then return ()
  else
    let confTooLow ←
      match r.confidence with
      | some c => do
        let thr ← settingsAutoEnrichThreshold s
        pure (decide (c < thr))
      | none => pure false
    if confTooLow then return ()
    else if itemIsGeneric r.item then return ()
    else if lowEq r.category.data "general".data && r.binColor == "other" then return ()
    else
      let _ : Except PyErr Unit := do
        let chk ← settingsAutoEnrichCheckDuplicates s
        if chk && env.dup then return ()
        else do
          let _ ← env.embed
          let _ ← env.addExample
          return ()
      let _ := desc
      return ()

/-! ### The orchestrator (`classifier.py`) -/

/-- The dictionary returned by `openrouter_service.classify_item`
(`Dict[str, Any]`: each key may be missing, and present values may have any
JSON type). -/
structure ClassifyDict where
  item : Option Jv := none
  category : Option Jv := none
  bin : Option Jv := none
  binColor : Option Jv := none
  explanation : Option Jv := none

/-- Pydantic validation of a required `str` field: only a string passes. -/
def pyStrField (v : Jv) : Except PyErr String :=
  match v with
  | .jstr s => .ok s
  | _ => .error .validationError

/-- Pydantic validation of the `Optional[float]` confidence field: `None`
passes through, numbers pass, numeric strings are coerced, everything else
is rejected. -/
def pyFloatFieldOpt (v : Jv) : Except PyErr (Option ℚ) :=
  match v with
  | .jnull => .ok none
  | .jnum q => .ok (some q)
  | .jstr s =>
    match parseRat s with
    | some q => .ok (some q)
    | none => .error .validationError
  | .jbool _ => .error .validationError
  | .jarr _ => .error .validationError
  | .jobj _ => .error .validationError

/-- Constructing the text-path `ClassificationResult` (classifier.py lines
116-124): `.get` defaults for the five string fields, no confidence, bbox or
mask. -/
def buildResultText (d : ClassifyDict) : Except PyErr ClassificationResult := do
  let item ← pyStrField (d.item.getD (.jstr "Unknown item"))
  let category ← pyStrField (d.category.getD (.jstr "general"))
  let bin ← pyStrField (d.bin.getD (.jstr "General waste"))
  let binColor ← pyStrField (d.binColor.getD (.jstr "other"))
  let explanation ← pyStrField (d.explanation.getD (.jstr "Classification completed."))
  return ⟨item, category, bin, binColor, explanation, none, none, none⟩

/-- Constructing the image-path `ClassificationResult` (classifier.py lines
179-188): the five string fields as above, the detection's confidence under
pydantic coercion, and the detection's bbox/mask when truthy. -/
def buildResultImage (d : ClassifyDict) (nd : NormDetection) :
    Except PyErr ClassificationResult := do
  let item ← pyStrField (d.item.getD (.jstr "Unknown item"))
  let category ← pyStrField (d.category.getD (.jstr "general"))
  let bin ← pyStrField (d.bin.getD (.jstr "General waste"))
  let binColor ← pyStrField (d.binColor.getD (.jstr "other"))
  let explanation ← pyStrField (d.explanation.getD (.jstr "Classification completed."))
  let conf ← pyFloatFieldOpt nd.confidence
  return ⟨item, category, bin, binColor, explanation, conf,
    if pyTruthy nd.bbox then some nd.bbox else none,
    if pyTruthy nd.mask then some nd.mask else none⟩

/-- `generate_text_embedding` called on a string: raises `ValueError` on
empty or whitespace-only input (embedding.py lines 34-35) before the model
call, whose outcome the environment supplies. -/
def embedCall (outcome : Except PyErr (List ℚ)) (t : String) : Except PyErr (List ℚ) :=
  if (trimChars t.data).isEmpty then .error .valueError else outcome

/-- `generate_text_embedding` called on an arbitrary detection description:
`if not text or not text.strip()` first evaluates truthiness (falsy raises
`ValueError`), then `.strip()` raises `AttributeError` on truthy
non-strings. -/
def embedArg (v : Jv) : Except PyErr String :=
  match v with
  | .jstr s => if (trimChars s.data).isEmpty then .error .valueError else .ok s
  | .jnull => .error .valueError
  | .jbool b => if b then .error .attributeError else .error .valueError
  | .jnum q => if q.num = 0 then .error .valueError else .error .attributeError
  | .jarr xs => if xs.isEmpty then .error .valueError else .error .attributeError
  | .jobj fs => if fs.isEmpty then .error .valueError else .error .attributeError

/-- Python `str(v)` as interpolated into the enrichment description; the
rendering is never observed by any modelled oracle. -/
def pyStrOf (v : Jv) : String :=
  match v with
  | .jstr s => s
  | .jnull => "None"
  | .jbool b => if b then "True" else "False"
  | .jnum _ => "0"
  | .jarr _ => "[]"
  | .jobj _ => "{}"

/-- Environment of one per-item loop iteration: outcomes of the embedding
call, of `retrieve_similar` (whose examples only feed the label-generator
oracle and are therefore not materialised), of `classify_item`, of the
decode step inside `crop_image`, and of the enrichment attempt. -/
structure ItemEnv where
  embed : Except PyErr (List ℚ)
  retrieve : Except PyErr Unit
  classify : Except PyErr ClassifyDict
  crop : CropEnv
  enrich : EnrichEnv

/-- One iteration of the text-path loop (classifier.py lines 99-133): embed,
retrieve, classify, build the result; any exception is caught and the slot
omitted.  The result is appended before the enrichment attempt, whose
exception the same handler catches, so the slot stays either way. -/
def runTextItem (s : Settings) (ie : ItemEnv) (p : String) : Option ClassificationResult :=
  match (do
      let _ ← embedCall ie.embed p
      let _ ← ie.retrieve
      let d ← ie.classify
      buildResultText d : Except PyErr ClassificationResult) with
  | .error _ => none
  | .ok r =>
    let _ := autoEnrichIfQualified s ie.enrich r p
    some r

/-- One iteration of the image-path loop (classifier.py lines 147-197):
optional crop when the bbox is truthy, embedding of the description,
retrieval, classification, result construction; per-item failures drop the
slot, and the post-append enrichment attempt cannot remove it. -/
def runImageItem (s : Settings) (ie : ItemEnv) (nd : NormDetection) :
    Option ClassificationResult :=
  match (do
      let cropped ←
        (if pyTruthy nd.bbox then cropImage ie.crop nd.bbox nd.mask
         else pure none : Except PyErr (Option CropOut))
      let _ ← embedArg nd.description
      let _ ← ie.embed
      let _ ← ie.retrieve
      let d ← ie.classify
      let _ := cropped
      buildResultImage d nd : Except PyErr ClassificationResult) with
  | .error _ => none
  | .ok r =>
    let _ := autoEnrichIfQualified s ie.enrich r (pyStrOf nd.description)
    some r

/-- The per-item loop: each list element is processed with its position's
environment; `none` outcomes (caught per-item failures) leave no slot. -/
def runItems (f : ℕ → α → Option β) : ℕ → List α → List β
  | _, [] => []
  | i, a :: as =>
    match f i a with
    | some b => b :: runItems f (i + 1) as
    | none => runItems f (i + 1) as

/-- The text-path loop over all phrases. -/
def collectText (s : Settings) (ienv : ℕ → ItemEnv) (phrases : List String) :
    List ClassificationResult :=
  runItems (fun i p => runTextItem s (ienv i) p) 0 phrases

/-- The image-path loop over all detections. -/
def collectImage (s : Settings) (ienv : ℕ → ItemEnv) (dets : List NormDetection) :
    List ClassificationResult :=
  runItems (fun i d => runImageItem s (ienv i) d) 0 dets

/-- The generic fallback detection of image_detector.py line 58 and
classifier.py line 141. -/
def genericDetection : NormDetection :=
  { description := .jstr "item in image", bbox := .jnull, mask := .jnull,
    confidence := .jnum (mkRat 1 2) }

/-- `detect_objects` (image_detector.py lines 25-58): empty input returns
`[]`; an exception from, or an empty result of, the vision-model call (whose
network and parsing behaviour the environment supplies) falls back to the
single generic detection. -/
def detectObjects (vision : Except PyErr (List NormDetection)) (image : String) :
    List NormDetection :=
  if image.data.isEmpty then []
  else
    match vision with
    | .error _ => [genericDetection]
    | .ok ds => if ds.isEmpty then [genericDetection] else ds

/-- Truthiness of an optional string argument (`None` and `""` are falsy). -/
def truthyStrOpt : Option String → Bool
  | none => false
  | some s => !s.data.isEmpty

/-- Exactly one of image and text is supplied and non-empty: the well-formed
input domain of the orchestrator. -/
def exactOne (image text : Option String) : Bool :=
  (truthyStrOpt image && !truthyStrOpt text) || (!truthyStrOpt image && truthyStrOpt text)

/-- Environment of one `classify_multiple` call. -/
structure OrchEnv where
  split : SplitEnv
  vision : Except PyErr (List NormDetection)
  sizeDecoded : Option (ℤ × ℤ)
  item : ℕ → ItemEnv

/-- The phrase list the text path iterates over: the splitter output, with
the classifier's own `[text]` fallback when it is empty (classifier.py lines
92-96). -/
def textPhrases (se : SplitEnv) (t : String) : List String :=
  let ps := splitItems se t
  if ps.isEmpty then [t] else ps

/-- The detection list the image path iterates over: `detect_objects`
output, with the classifier's generic fallback when it is empty
(classifier.py lines 137-141). -/
def imageDetections (vision : Except PyErr (List NormDetection)) (img : String) :
    List NormDetection :=
  let ds := detectObjects vision img
  if ds.isEmpty then [genericDetection] else ds

/-- The synthesized default result of classifier.py lines 201-209. -/
def defaultClassification : ClassificationResult :=
  ⟨"Unknown item", "general", "General waste", "other",
    "No items could be classified.", none, none, none⟩

/-- The response of `classify_multiple`. -/
structure MultiResponse where
  items : List ClassificationResult
  total_items : ℕ
  input_type : String

/-- The result list accumulated by the two per-item loops, before the
empty-list default is applied. -/
def rawResults (s : Settings) (env : OrchEnv) (image text : Option String) :
    List ClassificationResult :=
  if truthyStrOpt text then
    collectText s env.item (textPhrases env.split (text.getD ""))
  else
    let _ := getImageSize env.sizeDecoded
    collectImage s env.item (imageDetections env.vision (image.getD ""))

/-- `classify_multiple` (classifier.py lines 67-215): input validation,
per-item loops with caught failures, the default result when the list is
empty, and the response carrying the list, its length and the input type. -/
def classifyMultiple (s : Settings) (env : OrchEnv) (image text : Option String) :
    Except PyErr MultiResponse :=
  if !truthyStrOpt image && !truthyStrOpt text then .error .valueError
  else if truthyStrOpt image && truthyStrOpt text then .error .valueError
  else
    let inputType := if truthyStrOpt image then "image" else "text"
    let rs := rawResults s env image text
    let items := if rs.isEmpty then [defaultClassification] else rs
    .ok { items := items, total_items := items.length, input_type := inputType }

/-- `classify` (classifier.py lines 20-65): the single-item path, with the
same validation and no per-item exception handler. -/
def classifySingle (ie : ItemEnv) (image text : Option String) :
    Except PyErr ClassificationResult :=
  if !truthyStrOpt image && !truthyStrOpt text then .error .valueError
  else if truthyStrOpt image && truthyStrOpt text then .error .valueError
  else do
    let _ ← (if truthyStrOpt text then embedCall ie.embed (text.getD "") else pure [])
    let _ ← ie.retrieve
    let d ← ie.classify
    buildResultText d

/-! ### Concrete environments used by witnesses and counterexamples -/

/-- A label-generator answer with all five fields present as strings. -/
def okDict : ClassifyDict :=
  { item := some (.jstr "Aluminum can"), category := some (.jstr "metal"),
    bin := some (.jstr "Yellow bin"), binColor := some (.jstr "yellow"),
    explanation := some (.jstr "Rinse before recycling.") }

/-- The classification built from `okDict` on the text path. -/
def okResult : ClassificationResult :=
  ⟨"Aluminum can", "metal", "Yellow bin", "yellow", "Rinse before recycling.",
    none, none, none⟩

/-- An enrichment environment whose external calls all succeed. -/
def okEnrichEnv : EnrichEnv :=
  { dup := false, embed := .ok [1], addExample := .ok "id-1" }

/-- A per-item environment whose external calls all succeed. -/
def okItemEnv : ItemEnv :=
  { embed := .ok [1], retrieve := .ok (), classify := .ok okDict,
    crop := ⟨some ⟨400, 200, false⟩⟩, enrich := okEnrichEnv }

/-- A per-item environment whose label-generator call raises. -/
def failItemEnv : ItemEnv :=
  { embed := .ok [1], retrieve := .ok (), classify := .error .runtimeError,
    crop := ⟨none⟩, enrich := okEnrichEnv }

/-- A splitter environment in which both generative calls raise. -/
def llmFailSplit : SplitEnv :=
  { llm := .error .runtimeError, expandOne := .error .runtimeError }

/-- An orchestrator environment: generative calls fail, per-item calls all
succeed. -/
def okTextEnv : OrchEnv :=
  { split := llmFailSplit, vision := .error .runtimeError, sizeDecoded := none,
    item := fun _ => okItemEnv }

/-- An orchestrator environment in which every per-item label call fails. -/
def failTextEnv : OrchEnv :=
  { split := llmFailSplit, vision := .error .runtimeError, sizeDecoded := none,
    item := fun _ => failItemEnv }

/-- Confidence value lying in the closed interval [0, 1], as the claim
states it. -/
def confWithin01 (v : Jv) : Prop :=
  ∃ q : ℚ, v = .jnum q ∧ 0 ≤ q ∧ q ≤ 1

/-- A raw detection with no keys at all. -/
def genericRaw : RawDetection := {}

/-- A detector mask encoding a list of coordinate pairs. -/
def maskOfPoints (pts : List (ℚ × ℚ)) : Jv :=
  .jarr (pts.map (fun p => Jv.jarr [.jnum p.1, .jnum p.2]))

/-- A raw detection carrying only a mask (no bbox key). -/
def maskOnlyDet (pts : List (ℚ × ℚ)) (descO confO : Option Jv) : RawDetection :=
  { description := descO, bbox := none, mask := some (maskOfPoints pts), confidence := confO }

/-- The square mask of the claim's concrete test vector. -/
def squarePts : List (ℚ × ℚ) := [(10, 10), (90, 10), (90, 90), (10, 90)]

/-- The normalized detection expected for the square mask: bbox
[10, 10, 80, 80] synthesized, mask kept, defaults elsewhere. -/
def squareNorm : NormDetection :=
  { description := .jstr "item in image",
    bbox := .jarr [.jnum 10, .jnum 10, .jnum 80, .jnum 80],
    mask := maskOfPoints squarePts,
    confidence := .jnum (mkRat 1 2) }

/-- The 400 by 200 RGB image of the claim's concrete test vector. -/
def img400 : ImageInfo := ⟨400, 200, false⟩

/-- A mask whose first coordinate pair has a string x coordinate, so the
pixel conversion inside the mask branch raises `TypeError`. -/
def strMask3 : Jv :=
  .jarr [.jarr [.jstr "a", .jnum 0], .jarr [.jnum 1, .jnum 1], .jarr [.jnum 2, .jnum 2]]

/-! ### Helper lemmas -/

/-- `qSub` agrees with subtraction on `ℚ`. -/
theorem qSub_eq (a b : ℚ) : qSub a b = a - b := by
  have ha : (a.den : ℚ) ≠ 0 := by
    exact_mod_cast a.den_nz
  have hb : (b.den : ℚ) ≠ 0 := by
    exact_mod_cast b.den_nz
  rw [qSub, Rat.mkRat_eq_div]
  push_cast
  rw [sub_div]
  congr 1
  · rw [mul_div_mul_right _ _ hb, Rat.num_div_den]
  · rw [mul_comm (a.den : ℚ) (b.den : ℚ), mul_div_mul_right _ _ ha, Rat.num_div_den]


/-- Characterisation of a successful `Except` bind. -/
theorem bindExcept_eq_ok {α β : Type} {e : Except PyErr α} {f : α → Except PyErr β} {b : β} :
    (e >>= f) = .ok b ↔ ∃ a, e = .ok a ∧ f a = .ok b := by
  cases e <;> simp [Bind.bind, Except.bind]

/-- Characterisation of a successful `Except` pure. -/
theorem pureExcept_eq_ok {α : Type} {a b : α} :
    (pure a : Except PyErr α) = .ok b ↔ a = b := by
  simp [pure, Except.pure]

/-- The per-item loop is the in-order `filterMap` of the per-item outcomes
over the position-tagged list. -/
theorem runItems_eq_filterMap {α β : Type} (f : ℕ → α → Option β) :
    ∀ (xs : List α) (i : ℕ),
      runItems f i xs = (List.enumFrom i xs).filterMap (fun p => f p.1 p.2) := by
  intro xs
  induction xs with
  | nil => intro i; rfl
  | cons a as ih =>
    intro i
    simp only [runItems, List.enumFrom, List.filterMap_cons]
    cases f i a <;> simp [ih (i + 1)]

/-- The loop only consults the environment at positions at or beyond the
start index. -/
theorem runItems_congrAbove {α β : Type} {f g : ℕ → α → Option β} :
    ∀ (xs : List α) (i : ℕ), (∀ j a, i ≤ j → f j a = g j a) →
      runItems f i xs = runItems g i xs := by
  intro xs
  induction xs with
  | nil => intro i _; rfl
  | cons a as ih =>
    intro i h
    simp only [runItems]
    rw [h i a le_rfl, ih (i + 1) (fun j a2 hj => h j a2 (by omega))]

/-- Shifting the index by one is the same as shifting the environment. -/
theorem runItems_shift {α β : Type} (f : ℕ → α → Option β) :
    ∀ (xs : List α) (i : ℕ),
      runItems (fun j a => f (j + 1) a) i xs = runItems f (i + 1) xs := by
  intro xs
  induction xs with
  | nil => intro i; rfl
  | cons a as ih =>
    intro i
    simp only [runItems]
    cases f (i + 1) a <;> simp [ih (i + 1)]

/-- Deleting a failing position from the input (and shifting the
environments above it down by one) leaves the loop output unchanged. -/
theorem runItems_erase {α β : Type} (f : ℕ → α → Option β) :
    ∀ (xs : List α) (k i : ℕ) (hk : k < xs.length),
      f (i + k) (xs.get ⟨k, hk⟩) = none →
      runItems f i xs =
        runItems (fun j a => if j < i + k then f j a else f (j + 1) a) i (xs.eraseIdx k) := by
  intro xs
  induction xs with
  | nil => intro k i hk; exact absurd hk (by simp)
  | cons a as ih =>
    intro k i hk hnone
    cases k with
    | zero =>
      have hnone2 : f i a = none := by simpa [List.get] using hnone
      have h1 : runItems f i (a :: as) = runItems f (i + 1) as := by
        simp [runItems, hnone2]
      have h2 : runItems (fun j a2 => if j < i + 0 then f j a2 else f (j + 1) a2) i
            ((a :: as).eraseIdx 0) = runItems (fun j a2 => f (j + 1) a2) i as := by
        simp only [List.eraseIdx]
        exact runItems_congrAbove as i (fun j a2 hj => by
          have hlt : ¬ j < i + 0 := by omega
          rw [if_neg hlt])
      rw [h1, h2, runItems_shift]
    | succ k2 =>
      have hk2 : k2 < as.length := by simpa using hk
      have harith : i + (k2 + 1) = (i + 1) + k2 := by omega
      have hnone2 : f ((i + 1) + k2) (as.get ⟨k2, hk2⟩) = none := by
        rw [← harith]; simpa [List.get] using hnone
      simp only [List.eraseIdx, runItems]
      have hfia : (if i < i + (k2 + 1) then f i a else f (i + 1) a) = f i a := by
        simp
      rw [hfia]
      have hrec := ih k2 (i + 1) hk2 hnone2
      rw [harith]
      cases f i a <;> simp [hrec]

/-- `pyMinList` never exceeds its seed. -/
theorem pyMinList_init_le : ∀ (xs : List ℚ) (x : ℚ), pyMinList x xs ≤ x := by
  intro xs
  induction xs with
  | nil => intro x; exact le_rfl
  | cons y ys ih =>
    intro x
    have h := ih (if y < x then y else x)
    by_cases hy : y < x
    · simp only [pyMinList, List.foldl] at h ⊢
      simp only [if_pos hy] at h ⊢
      exact le_trans h (le_of_lt hy)
    · simp only [pyMinList, List.foldl] at h ⊢
      simp only [if_neg hy] at h ⊢
      exact h

/-- `pyMinList` is a lower bound of the list. -/
theorem pyMinList_le : ∀ (xs : List ℚ) (x y : ℚ), y ∈ xs → pyMinList x xs ≤ y := by
  intro xs
  induction xs with
  | nil => intro x y hy; exact absurd hy (by simp)
  | cons z zs ih =>
    intro x y hy
    rcases List.mem_cons.mp hy with hz | hmem
    · subst hz
      have h := pyMinList_init_le zs (if y < x then y else x)
      by_cases hc : y < x
      · simpa [pyMinList, List.foldl, if_pos hc] using h
      · have : pyMinList x zs ≤ x := pyMinList_init_le zs x
        push_neg at hc
        simpa [pyMinList, List.foldl, if_neg (not_lt.mpr hc)] using le_trans (by simpa [pyMinList, List.foldl, if_neg (not_lt.mpr hc)] using pyMinList_init_le zs x) hc
    · by_cases hc : z < x
      · simpa [pyMinList, List.foldl, if_pos hc] using ih z y hmem
      · simpa [pyMinList, List.foldl, if_neg hc] using ih x y hmem

/-- `pyMinList` is attained: it is the seed or a list element. -/
theorem pyMinList_mem : ∀ (xs : List ℚ) (x : ℚ),
    pyMinList x xs = x ∨ pyMinList x xs ∈ xs := by
  intro xs
  induction xs with
  | nil => intro x; exact Or.inl rfl
  | cons y ys ih =>
    intro x
    by_cases hc : y < x
    · rcases ih y with h | h
      · exact Or.inr (List.mem_cons.mpr (Or.inl (by
          simpa [pyMinList, List.foldl, if_pos hc] using h)))
      · exact Or.inr (List.mem_cons.mpr (Or.inr (by
          simpa [pyMinList, List.foldl, if_pos hc] using h)))
    · rcases ih x with h | h
      · exact Or.inl (by simpa [pyMinList, List.foldl, if_neg hc] using h)
      · exact Or.inr (List.mem_cons.mpr (Or.inr (by
          simpa [pyMinList, List.foldl, if_neg hc] using h)))

/-- `pyMaxList` is at least its seed. -/
theorem pyMaxList_init_le : ∀ (xs : List ℚ) (x : ℚ), x ≤ pyMaxList x xs := by
  intro xs
  induction xs with
  | nil => intro x; exact le_rfl
  | cons y ys ih =>
    intro x
    by_cases hy : x < y
    · exact le_trans (le_of_lt hy) (by simpa [pyMaxList, List.foldl, if_pos hy] using ih y)
    · simpa [pyMaxList, List.foldl, if_neg hy] using ih x

/-- `pyMaxList` is an upper bound of the list. -/
theorem pyMaxList_ge : ∀ (xs : List ℚ) (x y : ℚ), y ∈ xs → y ≤ pyMaxList x xs := by
  intro xs
  induction xs with
  | nil => intro x y hy; exact absurd hy (by simp)
  | cons z zs ih =>
    intro x y hy
    rcases List.mem_cons.mp hy with hz | hmem
    · subst hz
      by_cases hc : x < y
      · simpa [pyMaxList, List.foldl, if_pos hc] using pyMaxList_init_le zs y
      · push_neg at hc
        exact le_trans hc (by simpa [pyMaxList, List.foldl, if_neg (not_lt.mpr hc)] using pyMaxList_init_le zs x)
    · by_cases hc : x < z
      · simpa [pyMaxList, List.foldl, if_pos hc] using ih z y hmem
      · simpa [pyMaxList, List.foldl, if_neg hc] using ih x y hmem

/-- `pyMaxList` is attained: it is the seed or a list element. -/
theorem pyMaxList_mem : ∀ (xs : List ℚ) (x : ℚ),
    pyMaxList x xs = x ∨ pyMaxList x xs ∈ xs := by
  intro xs
  induction xs with
  | nil => intro x; exact Or.inl rfl
  | cons y ys ih =>
    intro x
    by_cases hc : x < y
    · rcases ih y with h | h
      · exact Or.inr (List.mem_cons.mpr (Or.inl (by
          simpa [pyMaxList, List.foldl, if_pos hc] using h)))
      · exact Or.inr (List.mem_cons.mpr (Or.inr (by
          simpa [pyMaxList, List.foldl, if_pos hc] using h)))
    · rcases ih x with h | h
      · exact Or.inl (by simpa [pyMaxList, List.foldl, if_neg hc] using h)
      · exact Or.inr (List.mem_cons.mpr (Or.inr (by
          simpa [pyMaxList, List.foldl, if_neg hc] using h)))

/-- Shape of the `classify_multiple` response on the well-formed domain. -/
theorem classifyMultiple_ok (s : Settings) (env : OrchEnv) (image text : Option String)
    (h : exactOne image text = true) :
    classifyMultiple s env image text =
      .ok { items := if (rawResults s env image text).isEmpty then [defaultClassification]
                     else rawResults s env image text,
            total_items := (if (rawResults s env image text).isEmpty then [defaultClassification]
                     else rawResults s env image text).length,
            input_type := if truthyStrOpt image then "image" else "text" } := by
  unfold exactOne at h
  unfold classifyMultiple
  cases hI : truthyStrOpt image <;> cases hT : truthyStrOpt text <;>
    rw [hI, hT] at h <;> simp_all

/-- A successfully normalized detection keeps the raw confidence value (with
the 0.5 default only for a missing key) and the defaulted description. -/
theorem normalizeOne_ok_fields {d : RawDetection} {nd : NormDetection}
    (h : normalizeOne d = .ok nd) :
    nd.confidence = d.confidence.getD (.jnum (mkRat 1 2)) ∧
    nd.description = d.description.getD (.jstr "item in image") := by
  simp only [normalizeOne] at h
  by_cases hcond : (pyTruthy (d.mask.getD Jv.jnull) && !pyTruthy (d.bbox.getD Jv.jnull)) = true
  · rw [if_pos hcond] at h
    rw [bindExcept_eq_ok] at h
    obtain ⟨b1, _, hpure⟩ := h
    rw [pureExcept_eq_ok] at hpure
    subst hpure
    exact ⟨rfl, rfl⟩
  · rw [if_neg hcond] at h
    rw [bindExcept_eq_ok] at h
    obtain ⟨b1, _, hpure⟩ := h
    rw [pureExcept_eq_ok] at hpure
    subst hpure
    exact ⟨rfl, rfl⟩

/-- `collectXY` recovers an encoded point list exactly. -/
theorem collectXY_encoded : ∀ pts : List (ℚ × ℚ),
    collectXY (pts.map (fun p => Jv.jarr [.jnum p.1, .jnum p.2])) = .ok pts := by
  intro pts
  induction pts with
  | nil => rfl
  | cons p ps ih =>
    simp only [List.map_cons, collectXY, pyFloat]
    rw [ih]
    rfl

/-- Bounds guaranteed by the clamping step: nonnegative origin inside the
image, extents at least one, and containment of the far corner whenever the
origin is strictly inside the image. -/
theorem clampRect_bounds (info : ImageInfo) (p : ℤ × ℤ × ℤ × ℤ)
    (hW : 1 ≤ info.width) (hH : 1 ≤ info.height) :
    0 ≤ (clampRect info p).1 ∧ (clampRect info p).1 ≤ info.width ∧
    0 ≤ (clampRect info p).2.1 ∧ (clampRect info p).2.1 ≤ info.height ∧
    1 ≤ (clampRect info p).2.2.1 ∧ 1 ≤ (clampRect info p).2.2.2 ∧
    ((clampRect info p).1 < info.width →
      (clampRect info p).1 + (clampRect info p).2.2.1 ≤ info.width) ∧
    ((clampRect info p).2.1 < info.height →
      (clampRect info p).2.1 + (clampRect info p).2.2.2 ≤ info.height) := by
  obtain ⟨x0, y0, w0, h0⟩ := p
  simp only [clampRect]
  omega

/-- Dissection of a successful crop: the decode succeeded, the bbox was a
four-element list whose pixel conversion succeeded, the mask step did not
raise, and the output is the clamped rectangle. -/
theorem cropImage_ok_elim {env : CropEnv} {bbox mask : Jv} {out : CropOut}
    (h : cropImage env bbox mask = .ok (some out)) :
    ∃ info b0 b1 b2 b3 raw applied,
      env.decoded = some info ∧ bbox = .jarr [b0, b1, b2, b3] ∧
      bboxPixels info b0 b1 b2 b3 = .ok raw ∧
      maskStep info mask = .ok applied ∧
      out = { left := (clampRect info raw).1, upper := (clampRect info raw).2.1,
              right := (clampRect info raw).1 + (clampRect info raw).2.2.1,
              lower := (clampRect info raw).2.1 + (clampRect info raw).2.2.2,
              maskApplied := applied, png := applied || info.isRGBA } := by
  unfold cropImage at h
  cases hPT : pyTruthy bbox
  · rw [hPT] at h
    simp at h
  · rw [hPT] at h
    simp only [Bool.not_true, Bool.false_eq_true, if_false] at h
    cases hL : pyLen bbox with
    | error e => simp only [hL] at h; simp at h
    | ok n =>
      simp only [hL] at h
      by_cases hn : n ≠ 4
      · rw [if_pos hn] at h; simp at h
      · rw [if_neg hn] at h
        cases hB : cropBody env bbox mask with
        | error e => simp only [hB] at h; simp at h
        | ok o =>
          simp only [hB] at h
          simp only [Except.ok.injEq, Option.some.injEq] at h
          subst h
          unfold cropBody at hB
          cases hdec : env.decoded with
          | none => rw [hdec] at hB; simp at hB
          | some info =>
            rw [hdec] at hB
            cases bbox with
            | jarr xs =>
              match xs, hB with
              | [b0, b1, b2, b3], hB => ?_
              | [], hB => simp at hB
              | [_], hB => simp at hB
              | [_, _], hB => simp at hB
              | [_, _, _], hB => simp at hB
              | _ :: _ :: _ :: _ :: _ :: _, hB => simp at hB
              rw [bindExcept_eq_ok] at hB
              obtain ⟨raw, hraw, hB2⟩ := hB
              rw [bindExcept_eq_ok] at hB2
              obtain ⟨applied, happ, hB3⟩ := hB2
              rw [pureExcept_eq_ok] at hB3
              exact ⟨info, b0, b1, b2, b3, raw, applied, by simp [hdec], rfl, hraw, happ, hB3.symm⟩
            | jnull => simp at hB
            | jbool b => simp at hB
            | jnum q => simp at hB
            | jstr s2 => simp at hB
            | jobj fs => simp at hB

/-- `_split_simple` yields at least one phrase whenever the intro-stripped
text still has non-whitespace content. -/
theorem splitSimple_ne_nil {t : String}
    (h : (trimChars (stripIntro t.data)).isEmpty = false) :
    1 ≤ (splitSimple t).length := by
  unfold splitSimple
  by_cases hc :
      ((((splitDelims (stripIntro t.data) []).map String.mk).map cleanItem).filter
        (fun x => !x.data.isEmpty)).length ≤ 1
  · rw [if_pos hc, if_neg (by simp [h])]
    simp
  · rw [if_neg hc]
    omega

/-! ### The claims -/

/-- C1: for every well-formed single-input call (exactly one of image/text
supplied, non-empty), `classify_multiple` never propagates an exception to
its caller, whatever the outcomes of the external calls (splitter, detector,
embedder, store, label generator, enrichment) captured by the environment. -/
theorem c1_classify_multiple_total :
    ∀ (s : Settings) (env : OrchEnv) (image text : Option String),
      exactOne image text = true →
      ∃ resp, classifyMultiple s env image text = .ok resp := by
  intro s env image text h
  exact ⟨_, classifyMultiple_ok s env image text h⟩

/-- Witness for C1 at a concrete text input and environment. -/
theorem c1_witness :
    exactOne none (some "a can and a bottle") = true ∧
    ∃ resp, classifyMultiple defaultSettings okTextEnv none (some "a can and a bottle") =
      .ok resp :=
  ⟨by decide, c1_classify_multiple_total defaultSettings okTextEnv none
    (some "a can and a bottle") (by decide)⟩

/-- C2: a well-formed single-input call returns a non-empty list; when every
per-item attempt failed (the accumulated list is empty) the response is
exactly one default Classification (item "Unknown item", category "general",
bin "General waste", binColor "other", explanation "No items could be
classified."), and `total_items` is the length of the returned list. -/
theorem c2_nonempty_and_default :
    ∀ (s : Settings) (env : OrchEnv) (image text : Option String),
      exactOne image text = true →
      ∃ resp, classifyMultiple s env image text = .ok resp ∧
        resp.items ≠ [] ∧
        resp.total_items = resp.items.length ∧
        (rawResults s env image text = [] → resp.items = [defaultClassification]) ∧
        (rawResults s env image text ≠ [] → resp.items = rawResults s env image text) := by
  intro s env image text h
  refine ⟨_, classifyMultiple_ok s env image text h, ?_, rfl, ?_, ?_⟩
  · by_cases hnil : rawResults s env image text = []
    · simp [hnil]
    · simp [List.isEmpty_iff, hnil]
  · intro hnil
    simp [hnil]
  · intro hnn
    simp [List.isEmpty_iff, hnn]

/-- Witness for C2 in an environment where every label call fails, so the
default Classification is synthesized. -/
theorem c2_witness :
    exactOne none (some "pen") = true ∧
    ∃ resp, classifyMultiple defaultSettings failTextEnv none (some "pen") = .ok resp ∧
      resp.items ≠ [] ∧
      resp.total_items = resp.items.length ∧
      (rawResults defaultSettings failTextEnv none (some "pen") = [] →
        resp.items = [defaultClassification]) ∧
      (rawResults defaultSettings failTextEnv none (some "pen") ≠ [] →
        resp.items = rawResults defaultSettings failTextEnv none (some "pen")) :=
  ⟨by decide, c2_nonempty_and_default defaultSettings failTextEnv none (some "pen") (by decide)⟩

/-- C8 (code bug): the enrichment gate `_auto_enrich_if_qualified` raises
`AttributeError` on every call, because `Settings` in `config.py` declares
none of the `AUTO_ENRICH_*` attributes the gate reads, and the first read
(line 230) sits outside its try/except.  The claim (and spec section 4.5)
say the gate never raises. -/
theorem c8_auto_enrich_always_raises :
    ∀ (s : Settings) (env : EnrichEnv) (r : ClassificationResult) (desc : String),
      autoEnrichIfQualified s env r desc = .error .attributeError := by
  intro s env r desc
  rfl

/-- C10: with neither input or with both inputs supplied (in Python
truthiness terms), both `classify_multiple` and `classify` raise
`ValueError`, and they do so before any external call: the outcome does not
depend on the environment at all. -/
theorem c10_validation_first :
    ∀ (s : Settings) (env : OrchEnv) (ie : ItemEnv) (image text : Option String),
      exactOne image text = false →
      classifyMultiple s env image text = .error .valueError ∧
      classifySingle ie image text = .error .valueError ∧
      (∀ (s2 : Settings) (env2 : OrchEnv),
        classifyMultiple s2 env2 image text = classifyMultiple s env image text) ∧
      (∀ ie2 : ItemEnv, classifySingle ie2 image text = classifySingle ie image text) := by
  intro s env ie image text h
  unfold exactOne at h
  cases hI : truthyStrOpt image <;> cases hT : truthyStrOpt text <;> rw [hI, hT] at h
  · exact ⟨by simp [classifyMultiple, hI, hT], by simp [classifySingle, hI, hT],
      fun s2 env2 => by simp [classifyMultiple, hI, hT],
      fun ie2 => by simp [classifySingle, hI, hT]⟩
  · simp at h
  · simp at h
  · exact ⟨by simp [classifyMultiple, hI, hT], by simp [classifySingle, hI, hT],
      fun s2 env2 => by simp [classifyMultiple, hI, hT],
      fun ie2 => by simp [classifySingle, hI, hT]⟩

/-- Witness for C10 at a both-supplied input. -/
theorem c10_witness :
    exactOne (some "img") (some "txt") = false ∧
    (classifyMultiple defaultSettings okTextEnv (some "img") (some "txt") =
        .error .valueError ∧
      classifySingle okItemEnv (some "img") (some "txt") = .error .valueError ∧
      (∀ (s2 : Settings) (env2 : OrchEnv),
        classifyMultiple s2 env2 (some "img") (some "txt") =
          classifyMultiple defaultSettings okTextEnv (some "img") (some "txt")) ∧
      (∀ ie2 : ItemEnv, classifySingle ie2 (some "img") (some "txt") =
          classifySingle okItemEnv (some "img") (some "txt"))) :=
  ⟨by decide, c10_validation_first defaultSettings okTextEnv okItemEnv
    (some "img") (some "txt") (by decide)⟩

/-- C9 counterexample: while processing the single phrase "aluminum can"
with every pre-append step succeeding, the enrichment step inside the same
per-item try block fails (it raises `AttributeError`), yet the phrase's slot
is present in the result, not omitted: the failure did not omit the slot. -/
theorem c9_counterexample :
    autoEnrichIfQualified defaultSettings okEnrichEnv okResult "aluminum can" =
      .error .attributeError ∧
    classifyMultiple defaultSettings okTextEnv none (some "aluminum can") =
      .ok { items := [okResult], total_items := 1, input_type := "text" } :=
  ⟨rfl, rfl⟩

/-- C9 (amended): the result list is the in-order `filterMap` of the
per-item outcomes, so ordering matches the upstream phrase/detection order;
and a failure of the steps up to the result construction (embedding,
retrieval, label call, pydantic validation) omits only that item's slot:
deleting the failing position leaves the output unchanged.  A failure of the
enrichment step, which runs after the result is recorded, leaves the slot
present (see the counterexample). -/
theorem c9_order_isolation :
    (∀ (s : Settings) (ienv : ℕ → ItemEnv) (phrases : List String),
      collectText s ienv phrases =
        (List.enumFrom 0 phrases).filterMap (fun p => runTextItem s (ienv p.1) p.2))
  ∧ (∀ (s : Settings) (ienv : ℕ → ItemEnv) (dets : List NormDetection),
      collectImage s ienv dets =
        (List.enumFrom 0 dets).filterMap (fun p => runImageItem s (ienv p.1) p.2))
  ∧ (∀ (s : Settings) (ienv : ℕ → ItemEnv) (phrases : List String) (k : ℕ)
      (hk : k < phrases.length),
      runTextItem s (ienv k) (phrases.get ⟨k, hk⟩) = none →
      collectText s ienv phrases =
        collectText s (fun j => if j < k then ienv j else ienv (j + 1))
          (phrases.eraseIdx k))
  ∧ (∀ (s : Settings) (ienv : ℕ → ItemEnv) (dets : List NormDetection) (k : ℕ)
      (hk : k < dets.length),
      runImageItem s (ienv k) (dets.get ⟨k, hk⟩) = none →
      collectImage s ienv dets =
        collectImage s (fun j => if j < k then ienv j else ienv (j + 1))
          (dets.eraseIdx k)) := by
  refine ⟨?_, ?_, ?_, ?_⟩
  · intro s ienv phrases
    exact runItems_eq_filterMap _ phrases 0
  · intro s ienv dets
    exact runItems_eq_filterMap _ dets 0
  · intro s ienv phrases k hk hnone
    unfold collectText
    rw [runItems_erase (fun i p => runTextItem s (ienv i) p) phrases k 0 hk
      (by simpa using hnone)]
    apply runItems_congrAbove
    intro j a hj
    show (if j < 0 + k then runTextItem s (ienv j) a else runTextItem s (ienv (j + 1)) a) =
      runTextItem s (if j < k then ienv j else ienv (j + 1)) a
    by_cases hjk : j < k
    · rw [if_pos (by omega : j < 0 + k), if_pos hjk]
    · rw [if_neg (by omega : ¬ j < 0 + k), if_neg hjk]
  · intro s ienv dets k hk hnone
    unfold collectImage
    rw [runItems_erase (fun i d => runImageItem s (ienv i) d) dets k 0 hk
      (by simpa using hnone)]
    apply runItems_congrAbove
    intro j a hj
    show (if j < 0 + k then runImageItem s (ienv j) a else runImageItem s (ienv (j + 1)) a) =
      runImageItem s (if j < k then ienv j else ienv (j + 1)) a
    by_cases hjk : j < k
    · rw [if_pos (by omega : j < 0 + k), if_pos hjk]
    · rw [if_neg (by omega : ¬ j < 0 + k), if_neg hjk]

/-- Witness for C9: dropping the failing middle phrase (an empty string,
whose embedding call always raises `ValueError`) does not change the
output. -/
theorem c9_witness :
    runTextItem defaultSettings okItemEnv "" = none ∧
    collectText defaultSettings (fun _ => okItemEnv) ["can", "", "bottle"] =
      collectText defaultSettings
        (fun j => if j < 1 then (fun _ => okItemEnv) j else (fun _ => okItemEnv) (j + 1))
        (["can", "", "bottle"].eraseIdx 1) :=
  ⟨rfl, c9_order_isolation.2.2.1 defaultSettings (fun _ => okItemEnv)
    ["can", "", "bottle"] 1 (by decide) rfl⟩

/-- C3 counterexample: "items:" is non-empty (it has non-whitespace
characters), but when the generative split fails, `split_items` returns the
empty list: the deterministic fallback first strips the `items?:` intro
prefix and then finds nothing left, returning `[]` instead of the original
trimmed text. -/
theorem c3_counterexample :
    trimChars "items:".data ≠ [] ∧
    splitItems llmFailSplit "items:" = [] :=
  ⟨by decide, rfl⟩

/-- C3 (amended): for every non-empty input text whose remainder after the
fallback's intro-prefix stripping (of "i have" / "there are" / "item:" /
"items:") is still non-empty, `split_items` returns at least one phrase for
every outcome of the generative calls.  When the text consists of such a
prefix only, the fallback returns the empty list and the orchestrator
substitutes the original text itself. -/
theorem c3_split_nonempty :
    ∀ (env : SplitEnv) (t : String),
      (trimChars t.data).isEmpty = false →
      (trimChars (stripIntro t.data)).isEmpty = false →
      1 ≤ (splitItems env t).length := by
  intro env t h1 h2
  unfold splitItems
  rw [if_neg (by simp [h1])]
  split
  · exact splitSimple_ne_nil h2
  · split
    · omega
    · split
      · split
        · exact splitSimple_ne_nil h2
        · split
          · omega
          · omega
      · exact splitSimple_ne_nil h2

/-- Witness for C3 on a two-item phrase with failing generative calls. -/
theorem c3_witness :
    (trimChars "a can and a bottle".data).isEmpty = false ∧
    (trimChars (stripIntro "a can and a bottle".data)).isEmpty = false ∧
    1 ≤ (splitItems llmFailSplit "a can and a bottle").length :=
  ⟨by decide, by decide, c3_split_nonempty llmFailSplit "a can and a bottle"
    (by decide) (by decide)⟩

/-- C4 counterexample: a raw detection whose confidence key holds 3/2 is
normalized with that value passed through unchanged, outside [0, 1]; no
defaulting or clamping of a present confidence value happens. -/
theorem c4_counterexample :
    normalizeDetections [{ confidence := some (.jnum (mkRat 3 2)) }] =
      .ok [{ description := .jstr "item in image", bbox := .jnull, mask := .jnull,
             confidence := .jnum (mkRat 3 2) }] ∧
    ¬ confWithin01 (.jnum (mkRat 3 2)) := by
  constructor
  · rfl
  · rintro ⟨q, hq, h0, h1⟩
    have hq2 : mkRat 3 2 = q := by injection hq
    subst hq2
    rw [Rat.mkRat_eq_div] at h1
    norm_num at h1

/-- C4 (amended): given at least one raw entry, normalization returns one
canonical detection per raw entry whenever it returns at all (it can raise
`TypeError` when a truthy non-sized mask is present), and each returned
confidence equals the raw confidence value when the key is present —
unvalidated, so within [0, 1] only if the raw value is — and 0.5 exactly
when the key is missing. -/
theorem c4_confidence_passthrough :
    ∀ (ds : List RawDetection) (nds : List NormDetection),
      normalizeDetections ds = .ok nds →
      nds.length = ds.length ∧
      ∀ (k : ℕ) (hk : k < nds.length) (hk2 : k < ds.length),
        (nds.get ⟨k, hk⟩).confidence =
          ((ds.get ⟨k, hk2⟩).confidence.getD (.jnum (mkRat 1 2))) := by
  intro ds
  induction ds with
  | nil =>
    intro nds h
    simp only [normalizeDetections] at h
    have hn : nds = [] := by
      cases h
      rfl
    subst hn
    exact ⟨rfl, fun k hk hk2 => absurd hk (by simp)⟩
  | cons d ds2 ih =>
    intro nds h
    simp only [normalizeDetections] at h
    rw [bindExcept_eq_ok] at h
    obtain ⟨nd, hnd, h2⟩ := h
    rw [bindExcept_eq_ok] at h2
    obtain ⟨nds2, hnds2, hp⟩ := h2
    rw [pureExcept_eq_ok] at hp
    subst hp
    obtain ⟨ihlen, ihidx⟩ := ih nds2 hnds2
    refine ⟨by simp [ihlen], ?_⟩
    intro k hk hk2
    cases k with
    | zero =>
      simpa [List.get] using (normalizeOne_ok_fields hnd).1
    | succ k2 =>
      have hk' : k2 < nds2.length := by simpa using hk
      have hk2' : k2 < ds2.length := by simpa using hk2
      simpa [List.get] using ihidx k2 hk' hk2'

/-- Witness for C4 at a single raw detection with no keys, which normalizes
to the generic detection. -/
theorem c4_witness :
    [genericDetection].length = [genericRaw].length ∧
    ∀ (k : ℕ) (hk : k < [genericDetection].length) (hk2 : k < [genericRaw].length),
      ([genericDetection].get ⟨k, hk⟩).confidence =
        (([genericRaw].get ⟨k, hk2⟩).confidence.getD (.jnum (mkRat 1 2))) :=
  c4_confidence_passthrough [genericRaw] [genericDetection] rfl

/-- Bbox synthesis on an encoded nonempty point list: the scan minima and
maxima of the coordinates. -/
theorem synthFromMask_encoded (p0 : ℚ × ℚ) (rest : List (ℚ × ℚ)) :
    synthFromMask Jv.jnull (maskOfPoints (p0 :: rest)) =
      .ok (Jv.jarr [.jnum (pyMinList p0.1 (rest.map Prod.fst)),
                    .jnum (pyMinList p0.2 (rest.map Prod.snd)),
                    .jnum (qSub (pyMaxList p0.1 (rest.map Prod.fst))
                                (pyMinList p0.1 (rest.map Prod.fst))),
                    .jnum (qSub (pyMaxList p0.2 (rest.map Prod.snd))
                                (pyMinList p0.2 (rest.map Prod.snd)))]) := by
  unfold synthFromMask
  simp only [maskOfPoints, pyLen, pyIter, List.map_cons, List.length_cons]
  split
  · next h => exact absurd h (by omega)
  · rw [show (Jv.jarr [.jnum p0.1, .jnum p0.2] ::
        rest.map (fun p => Jv.jarr [.jnum p.1, .jnum p.2])) =
        (p0 :: rest).map (fun p => Jv.jarr [.jnum p.1, .jnum p.2]) from rfl]
    rw [collectXY_encoded]

/-- C5: a raw detection with a mask of valid coordinate pairs and no bbox
gets the synthesized bbox `[minX, minY, maxX - minX, maxY - minY]` over the
mask extrema; in particular the points (10,10), (90,10), (90,90), (10,90)
yield bbox [10, 10, 80, 80]. -/
theorem c5_mask_bbox_synthesis :
    (∀ (pts : List (ℚ × ℚ)) (descO confO : Option Jv), pts ≠ [] →
      ∃ nd, normalizeOne (maskOnlyDet pts descO confO) = .ok nd ∧
        ∃ a b c d : ℚ,
          nd.bbox = .jarr [.jnum a, .jnum b, .jnum (c - a), .jnum (d - b)] ∧
          a ∈ pts.map Prod.fst ∧ (∀ x ∈ pts.map Prod.fst, a ≤ x) ∧
          b ∈ pts.map Prod.snd ∧ (∀ y ∈ pts.map Prod.snd, b ≤ y) ∧
          c ∈ pts.map Prod.fst ∧ (∀ x ∈ pts.map Prod.fst, x ≤ c) ∧
          d ∈ pts.map Prod.snd ∧ (∀ y ∈ pts.map Prod.snd, y ≤ d))
  ∧ normalizeOne (maskOnlyDet squarePts none none) = .ok squareNorm := by
  constructor
  · intro pts descO confO hne
    cases pts with
    | nil => exact absurd rfl hne
    | cons p0 rest =>
      refine ⟨⟨descO.getD (.jstr "item in image"),
          Jv.jarr [.jnum (pyMinList p0.1 (rest.map Prod.fst)),
            .jnum (pyMinList p0.2 (rest.map Prod.snd)),
            .jnum (qSub (pyMaxList p0.1 (rest.map Prod.fst))
                        (pyMinList p0.1 (rest.map Prod.fst))),
            .jnum (qSub (pyMaxList p0.2 (rest.map Prod.snd))
                        (pyMinList p0.2 (rest.map Prod.snd)))],
          maskOfPoints (p0 :: rest),
          confO.getD (.jnum (mkRat 1 2))⟩, ?_,
        pyMinList p0.1 (rest.map Prod.fst), pyMinList p0.2 (rest.map Prod.snd),
        pyMaxList p0.1 (rest.map Prod.fst), pyMaxList p0.2 (rest.map Prod.snd),
        ?_, ?_, ?_, ?_, ?_, ?_, ?_, ?_, ?_⟩
      · simp only [normalizeOne, maskOnlyDet, Option.getD_some, Option.getD_none]
        rw [if_pos (show (pyTruthy (maskOfPoints (p0 :: rest)) && !pyTruthy Jv.jnull) = true
          by simp [maskOfPoints, pyTruthy])]
        rw [synthFromMask_encoded]
        simp [maskOfPoints, pyTruthy]
      · simp [qSub_eq]
      · rw [List.map_cons]
        rcases pyMinList_mem (rest.map Prod.fst) p0.1 with h | h
        · rw [h]; exact List.mem_cons_self _ _
        · exact List.mem_cons_of_mem _ h
      · intro x hx
        rw [List.map_cons] at hx
        rcases List.mem_cons.mp hx with rfl | hx2
        · exact pyMinList_init_le _ _
        · exact pyMinList_le _ _ _ hx2
      · rw [List.map_cons]
        rcases pyMinList_mem (rest.map Prod.snd) p0.2 with h | h
        · rw [h]; exact List.mem_cons_self _ _
        · exact List.mem_cons_of_mem _ h
      · intro y hy
        rw [List.map_cons] at hy
        rcases List.mem_cons.mp hy with rfl | hy2
        · exact pyMinList_init_le _ _
        · exact pyMinList_le _ _ _ hy2
      · rw [List.map_cons]
        rcases pyMaxList_mem (rest.map Prod.fst) p0.1 with h | h
        · rw [h]; exact List.mem_cons_self _ _
        · exact List.mem_cons_of_mem _ h
      · intro x hx
        rw [List.map_cons] at hx
        rcases List.mem_cons.mp hx with rfl | hx2
        · exact pyMaxList_init_le _ _
        · exact pyMaxList_ge _ _ _ hx2
      · rw [List.map_cons]
        rcases pyMaxList_mem (rest.map Prod.snd) p0.2 with h | h
        · rw [h]; exact List.mem_cons_self _ _
        · exact List.mem_cons_of_mem _ h
      · intro y hy
        rw [List.map_cons] at hy
        rcases List.mem_cons.mp hy with rfl | hy2
        · exact pyMaxList_init_le _ _
        · exact pyMaxList_ge _ _ _ hy2
  · rfl

/-- Witness for C5: the general synthesis statement applied to the concrete
four-point square mask. -/
theorem c5_witness :
    ∃ nd, normalizeOne (maskOnlyDet squarePts none none) = .ok nd ∧
      ∃ a b c d : ℚ,
        nd.bbox = .jarr [.jnum a, .jnum b, .jnum (c - a), .jnum (d - b)] ∧
        a ∈ squarePts.map Prod.fst ∧ (∀ x ∈ squarePts.map Prod.fst, a ≤ x) ∧
        b ∈ squarePts.map Prod.snd ∧ (∀ y ∈ squarePts.map Prod.snd, b ≤ y) ∧
        c ∈ squarePts.map Prod.fst ∧ (∀ x ∈ squarePts.map Prod.fst, x ≤ c) ∧
        d ∈ squarePts.map Prod.snd ∧ (∀ y ∈ squarePts.map Prod.snd, y ≤ d) :=
  c5_mask_bbox_synthesis.1 squarePts none none (by simp [squarePts])

/-- C6 counterexample: on the 400 by 200 image, bbox [100, 0, 50, 50] clamps
to x = 400 while the width floor of one pixel then pushes the crop to
x + width = 401, outside the image: the clamp does not keep
(x + width, y + height) within the image when x reaches the right edge. -/
theorem c6_counterexample :
    cropImage ⟨some img400⟩ (.jarr [.jnum 100, .jnum 0, .jnum 50, .jnum 50]) .jnull =
      .ok (some ⟨400, 0, 401, 100, false, false⟩) ∧
    ¬ ((401 : ℤ) ≤ 400) :=
  ⟨rfl, by decide⟩

/-- C6 (amended): a successful crop has x, y clamped into the image and
width, height at least one; the far corner stays within the image whenever
the origin is strictly inside it (at x = width edge or y = height edge the
floor of one pixel overshoots by one); and the concrete 400 by 200 image
with bbox [25, 25, 50, 50] crops exactly the pixel rectangle from (100, 50)
to (300, 150). -/
theorem c6_crop_clamp_bounds :
    (∀ (env : CropEnv) (info : ImageInfo) (bbox mask : Jv) (out : CropOut),
      env.decoded = some info → 1 ≤ info.width → 1 ≤ info.height →
      cropImage env bbox mask = .ok (some out) →
      0 ≤ out.left ∧ out.left ≤ info.width ∧ 0 ≤ out.upper ∧ out.upper ≤ info.height ∧
      out.left + 1 ≤ out.right ∧ out.upper + 1 ≤ out.lower ∧
      (out.left < info.width → out.right ≤ info.width) ∧
      (out.upper < info.height → out.lower ≤ info.height))
  ∧ cropImage ⟨some img400⟩ (.jarr [.jnum 25, .jnum 25, .jnum 50, .jnum 50]) .jnull =
      .ok (some ⟨100, 50, 300, 150, false, false⟩) := by
  constructor
  · intro env info bbox mask out hdec hW hH hcrop
    obtain ⟨info2, b0, b1, b2, b3, raw, applied, hdec2, hbox, hraw, happ, hout⟩ :=
      cropImage_ok_elim hcrop
    have hinfo : info2 = info := by
      rw [hdec] at hdec2
      injection hdec2 with h
      exact h.symm
    rw [hinfo] at hout
    subst hout
    dsimp only
    obtain ⟨h1, h2, h3, h4, h5, h6, h7, h8⟩ := clampRect_bounds info raw hW hH
    refine ⟨h1, h2, h3, h4, by omega, by omega, fun hlt => by have := h7 hlt; omega,
      fun hlt => by have := h8 hlt; omega⟩
  · rfl

/-- Witness for C6: the general clamp bounds applied to the concrete
400 by 200 crop. -/
theorem c6_witness :
    0 ≤ (⟨100, 50, 300, 150, false, false⟩ : CropOut).left ∧
    (⟨100, 50, 300, 150, false, false⟩ : CropOut).left ≤ img400.width ∧
    0 ≤ (⟨100, 50, 300, 150, false, false⟩ : CropOut).upper ∧
    (⟨100, 50, 300, 150, false, false⟩ : CropOut).upper ≤ img400.height ∧
    (⟨100, 50, 300, 150, false, false⟩ : CropOut).left + 1 ≤
      (⟨100, 50, 300, 150, false, false⟩ : CropOut).right ∧
    (⟨100, 50, 300, 150, false, false⟩ : CropOut).upper + 1 ≤
      (⟨100, 50, 300, 150, false, false⟩ : CropOut).lower ∧
    ((⟨100, 50, 300, 150, false, false⟩ : CropOut).left < img400.width →
      (⟨100, 50, 300, 150, false, false⟩ : CropOut).right ≤ img400.width) ∧
    ((⟨100, 50, 300, 150, false, false⟩ : CropOut).upper < img400.height →
      (⟨100, 50, 300, 150, false, false⟩ : CropOut).lower ≤ img400.height) :=
  c6_crop_clamp_bounds.1 ⟨some img400⟩ img400
    (.jarr [.jnum 25, .jnum 25, .jnum 50, .jnum 50]) .jnull
    ⟨100, 50, 300, 150, false, false⟩ rfl (by decide) (by decide) rfl

/-- C7 counterexample: the mask rasterization step fails with `TypeError`,
yet extraction does not return absent: the failure is caught inside
`crop_image` (line 366) and a plain rectangular bbox crop is produced. -/
theorem c7_counterexample :
    cropMaskPixels img400 (pyIter strMask3) = .error .typeError ∧
    cropImage ⟨some img400⟩ (.jarr [.jnum 25, .jnum 25, .jnum 50, .jnum 50]) strMask3 =
      .ok (some ⟨100, 50, 300, 150, false, false⟩) :=
  ⟨rfl, rfl⟩

/-- C7 (amended): decode failures and bbox pixel-conversion failures return
absent, as does a truthy non-sized mask (whose `len` raises before the mask
try-block); but a failure while converting the mask points is caught
internally and yields the plain clamped bbox crop instead of absent. -/
theorem c7_crop_failure_modes :
    (∀ (env : CropEnv) (b0 b1 b2 b3 mask : Jv),
      env.decoded = none →
      cropImage env (.jarr [b0, b1, b2, b3]) mask = .ok none)
  ∧ (∀ (env : CropEnv) (info : ImageInfo) (b0 b1 b2 b3 mask : Jv) (e : PyErr),
      env.decoded = some info →
      bboxPixels info b0 b1 b2 b3 = .error e →
      cropImage env (.jarr [b0, b1, b2, b3]) mask = .ok none)
  ∧ (∀ (env : CropEnv) (info : ImageInfo) (b0 b1 b2 b3 mask : Jv)
      (raw : ℤ × ℤ × ℤ × ℤ) (e : PyErr),
      env.decoded = some info →
      bboxPixels info b0 b1 b2 b3 = .ok raw →
      pyTruthy mask = true → pyLen mask = .error e →
      cropImage env (.jarr [b0, b1, b2, b3]) mask = .ok none)
  ∧ (∀ (env : CropEnv) (info : ImageInfo) (b0 b1 b2 b3 mask : Jv)
      (raw : ℤ × ℤ × ℤ × ℤ) (n : ℤ) (e : PyErr),
      env.decoded = some info →
      bboxPixels info b0 b1 b2 b3 = .ok raw →
      pyTruthy mask = true → pyLen mask = .ok n → 0 < n →
      cropMaskPixels info (pyIter mask) = .error e →
      cropImage env (.jarr [b0, b1, b2, b3]) mask =
        .ok (some ⟨(clampRect info raw).1, (clampRect info raw).2.1,
          (clampRect info raw).1 + (clampRect info raw).2.2.1,
          (clampRect info raw).2.1 + (clampRect info raw).2.2.2,
          false, info.isRGBA⟩)) := by
  refine ⟨?_, ?_, ?_, ?_⟩
  · intro env b0 b1 b2 b3 mask hdec
    simp [cropImage, cropBody, pyTruthy, pyLen, hdec, Bind.bind, Except.bind,
      Functor.map, Except.map]
  · intro env info b0 b1 b2 b3 mask e hdec hraw
    simp [cropImage, cropBody, pyTruthy, pyLen, hdec, hraw, Bind.bind, Except.bind,
      Functor.map, Except.map]
  · intro env info b0 b1 b2 b3 mask raw e hdec hraw hmask hlen
    have hms : maskStep info mask = .error e := by
      unfold maskStep
      rw [hmask]
      simp only [Bool.not_true, Bool.false_eq_true, if_false]
      rw [hlen]
    simp [cropImage, cropBody, pyTruthy, pyLen, hdec, hraw, hms, Bind.bind, Except.bind,
      Functor.map, Except.map]
  · intro env info b0 b1 b2 b3 mask raw n e hdec hraw hmask hlen hn hpix
    have hms : maskStep info mask = .ok false := by
      unfold maskStep
      rw [hmask]
      simp only [Bool.not_true, Bool.false_eq_true, if_false]
      have hnle : ¬ n ≤ 0 := by omega
      simp only [hlen, hpix, if_neg hnle]
    simp [cropImage, cropBody, pyTruthy, pyLen, hdec, hraw, hms, Bind.bind, Except.bind,
      Functor.map, Except.map, pure, Except.pure]

/-- Witness for C7: the mask-failure fallback applied to the concrete string
mask. -/
theorem c7_witness :
    cropImage ⟨some img400⟩ (.jarr [.jnum 25, .jnum 25, .jnum 50, .jnum 50]) strMask3 =
      .ok (some ⟨(clampRect img400 (100, 50, 200, 100)).1,
        (clampRect img400 (100, 50, 200, 100)).2.1,
        (clampRect img400 (100, 50, 200, 100)).1 + (clampRect img400 (100, 50, 200, 100)).2.2.1,
        (clampRect img400 (100, 50, 200, 100)).2.1 + (clampRect img400 (100, 50, 200, 100)).2.2.2,
        false, img400.isRGBA⟩) :=
  c7_crop_failure_modes.2.2.2 ⟨some img400⟩ img400 (.jnum 25) (.jnum 25) (.jnum 50) (.jnum 50)
    strMask3 (100, 50, 200, 100) 3 .typeError rfl rfl rfl rfl (by decide) rfl
